import Mathlib

/-!
Shallow embedding of `src/data_ingestion/ukb_journals_extraction/download_pdfs.py`.

Pure data transformations (content verification, content-type detection,
state-file load/save) are translated as Lean functions.  The stateful
per-item download flow (`download_file`) is translated as a function over
an explicit state record plus an oracle describing the network's behavior;
it returns the outcome, the new state, and the trace of network requests
it performed.  Python exceptions that the code catches are modelled as
data constructors; an exception the code does not catch is modelled as an
`Except.error` result.
-/

set_option maxRecDepth 10000

namespace DownloadPdfs

/-- `MIN_PDF_SIZE = 10 * 1024` (download_pdfs.py line 29). -/
def MIN_PDF_SIZE : Nat := 10 * 1024

/-- Result of opening a file with `PyPDF2.PdfReader` (lines 203-230):
either the parse raises (caught at line 228), or it yields a list of
pages, each abstracted by the text `page.extract_text()` returns (the
empty string models both an empty extraction and a `None` return, which
are equally falsy in the `if text` test at line 217). -/
inductive PdfData where
  | unreadable (err : String)
  | parsed (pages : List String)
deriving DecidableEq, Repr

/-- A file on disk as seen by `verify_pdf_content`: `os.path.getsize`
(line 197) either raises (caught by the outer handler at line 232) or
yields a byte size, after which the PDF parse is attempted. -/
inductive PdfFile where
  | statError (err : String)
  | file (size : Nat) (data : PdfData)
deriving DecidableEq, Repr

/-- The per-page test at line 217: `if text and len(text) > 100`. -/
def pageHasText (t : String) : Bool :=
  !decide (t = "") && decide (100 < t.length)

/-- `verify_pdf_content` (lines 193-234), with the logger side effects
dropped.  Order of checks as in the source: size, parse, page count,
text scan over the first `min(3, num_pages)` pages. -/
def verify_pdf_content : PdfFile → Bool × String
  | .statError err => (false, "Error verifying: " ++ err)
  | .file size d =>
    if size < MIN_PDF_SIZE then
      (false, "File too small: " ++ toString size ++ " bytes")
    else
      match d with
      | .unreadable err => (false, "Error reading PDF: " ++ err)
      | .parsed pages =>
        if pages.length = 0 then
          (false, "PDF has no pages")
        else if (pages.take (min 3 pages.length)).any pageHasText then
          (true, "Valid PDF with " ++ toString pages.length ++ " pages")
        else
          (false, "No text content found in first few pages")

/-- `verify_content(filepath, file_type, verification_logger)`
(lines 305-307): it delegates to `verify_pdf_content` unconditionally,
ignoring `file_type`. -/
def verify_content (f : PdfFile) (fileType : String) : Bool × String :=
  verify_pdf_content f

/-- An HTTP response as far as content classification is concerned:
the declared `Content-Type` header and the leading bytes of the body. -/
structure HttpResponse where
  contentType : String
  firstBytes : String
deriving DecidableEq, Repr

/-- `detect_content_type(response)` (lines 188-191).  The body is a
single statement: `return 'pdf'` ("Always return 'pdf' since we're only
handling PDFs now"). -/
def detect_content_type (r : HttpResponse) : String := "pdf"

/-- Whether `s` begins with the byte string `pat` (used only to state
claims about classifier inputs). -/
def bytesStartWith (s pat : String) : Bool := decide (pat.data <+: s.data)

/-- Python's `needle in haystack` substring test on strings. -/
def strContains (haystack needle : String) : Bool :=
  decide (needle.data <:+: haystack.data)

/-- Python's `s.lower()`. -/
def pyLower (s : String) : String := String.mk (s.data.map Char.toLower)

/-- Python's `s.endswith(t)`. -/
def pyEndsWith (s t : String) : Bool := decide (t.data <:+ s.data)

/-- One input line after the pipe-splitting at lines 546-569: the full
original line (`url_info` / `original_url`, the ledger identity), the
actual URL (the last pipe-separated field), and the DOI in effect at the
failure-handling points (taken from the metadata fields, or from the
out-of-scope publication-index lookup for bare URLs; `none` when
absent).  Malformed metadata (a pipe count the unpack at line 566
rejects) is outside the input contract of section 6 and not modelled. -/
structure WorkItem where
  url_info : String
  url : String
  doi : Option String
deriving DecidableEq, Repr

/-- Outcome of the primary `requests.get` attempt (lines 884-925) on a
given URL: the request succeeded and the downloaded file's
`verify_content` verdict was `isValid`; or `requests.exceptions.RequestException`
was raised (caught at line 976); or some other exception was raised
inside the try block (caught at line 1074). -/
inductive PrimaryResult where
  | success (isValid : Bool)
  | requestError
  | otherError
deriving DecidableEq, Repr

/-- Oracle describing what the network and the filesystem do during one
run: the primary fetch result per URL, the curl-fallback result per URL
(`none` when the whole curl block raises — including the case where
`filepath` was never assigned before the rename at line 1003 — and
`some v` when it completes with verification verdict `v`), and whether
`download_from_scihub` succeeds for a given DOI. -/
structure FetchEnv where
  primary : String → PrimaryResult
  curl : String → Option Bool
  mirror : String → Bool

/-- A network request performed while processing one item: the primary
`requests.get` on the URL, the curl fallback on the URL, or an
invocation of `download_from_scihub` with a DOI. -/
inductive Event where
  | direct (url : String)
  | curl (url : String)
  | mirror (doi : String)
deriving DecidableEq, Repr

/-- Whether an event is an invocation of the mirror fallback client. -/
def Event.isMirror : Event → Bool
  | .mirror _ => true
  | _ => false

/-- Terminal disposition of one item in `download_file`: skipped because
already in the ledger (line 556), succeeded (returns True), or failed
(returns False after all methods were exhausted). -/
inductive Outcome where
  | skipped
  | succeeded
  | failed
deriving DecidableEq, Repr

/-- The mutable module-level state `download_file` reads and writes:
`downloaded_urls` (the completion ledger, keyed by the original line)
and `scihub_attempted_urls` (the mirror-attempt ledger; note the code
inserts the original URL on one path and the DOI on the others).  Both
are Python sets, modelled as lists up to membership. -/
structure DState where
  downloaded_urls : List String
  scihub_attempted_urls : List String
deriving DecidableEq, Repr

/-- Truthiness of the `doi` variable in `if doi and ...` tests. -/
def hasDoi (it : WorkItem) : Bool :=
  match it.doi with
  | some d => !decide (d = "")
  | none => false

/-- The DOI value used when a mirror attempt is made. -/
def doiStr (it : WorkItem) : String := it.doi.getD ""

/-- The routing test at line 573: `doi and not url.lower().endswith('.pdf')
and 'render' not in url.lower() and 'printable' not in url.lower()`. -/
def directToMirror (it : WorkItem) : Bool :=
  hasDoi it && !(pyEndsWith (pyLower it.url) ".pdf")
    && !(strContains (pyLower it.url) "render")
    && !(strContains (pyLower it.url) "printable")

/-- The Sci-Hub fallback taken from the invalid-content path (lines
950-966), the curl invalid-content path (lines 1025-1041), the failed
request path (lines 1047-1063), and the other-error path (lines
1075-1091).  All four share the same shape: `if doi and doi not in
scihub_attempted_urls`, then `scihub_attempted_urls.add(doi)` and call
`download_from_scihub`; on success the item's identity is added to
`downloaded_urls` and the item succeeds, otherwise (and when the guard
fails) the item is marked failed.  A mirror failure inside the curl
block falls through to the line-1048 guard, which then finds the DOI in
the ledger, so no second invocation happens. -/
def scihub_fallback (st : DState) (env : FetchEnv) (it : WorkItem) :
    Outcome × DState × List Event :=
  match it.doi with
  | some d =>
    if d ≠ "" ∧ d ∉ st.scihub_attempted_urls then
      let st1 : DState :=
        { st with scihub_attempted_urls := d :: st.scihub_attempted_urls }
      if env.mirror d then
        (.succeeded,
         { st1 with downloaded_urls := it.url_info :: st1.downloaded_urls },
         [.mirror d])
      else
        (.failed, st1, [.mirror d])
    else
      (.failed, st, [])
  | none => (.failed, st, [])

/-- `download_file(url_info, ...)` (lines 541-1100) over the explicit
state and the network oracle, returning the outcome, the new state, and
the trace of network requests.  Branches, in source order:
already-downloaded skip (lines 556-559); direct Sci-Hub routing for a
DOI-bearing non-`.pdf` URL without render/printable markers (lines
571-655, which inserts the *original URL* into `scihub_attempted_urls`
at line 640 and never consults that set); otherwise the regular primary
attempt with its invalid-content, curl-fallback, failed-request and
other-error continuations.  The out-of-scope filename-derivation code
(lines 577-637 and 664-871) is side-effect-free for this model and its
own failure modes are not modelled. -/
def download_file (st : DState) (env : FetchEnv) (it : WorkItem) :
    Outcome × DState × List Event :=
  if it.url_info ∈ st.downloaded_urls then
    (.skipped, st, [])
  else if directToMirror it then
    let d := doiStr it
    let st1 : DState :=
      { st with scihub_attempted_urls := it.url_info :: st.scihub_attempted_urls }
    if env.mirror d then
      (.succeeded,
       { st1 with downloaded_urls := it.url_info :: st1.downloaded_urls },
       [.mirror d])
    else
      (.failed, st1, [.mirror d])
  else
    match env.primary it.url with
    | .success true =>
      (.succeeded,
       { st with downloaded_urls := it.url_info :: st.downloaded_urls },
       [.direct it.url])
    | .success false =>
      let r := scihub_fallback st env it
      (r.1, r.2.1, .direct it.url :: r.2.2)
    | .requestError =>
      if strContains (pyLower it.url) "printable" || strContains (pyLower it.url) "render" then
        match env.curl it.url with
        | some true =>
          (.succeeded,
           { st with downloaded_urls := it.url_info :: st.downloaded_urls },
           [.direct it.url, .curl it.url])
        | some false =>
          let r := scihub_fallback st env it
          (r.1, r.2.1, .direct it.url :: .curl it.url :: r.2.2)
        | none =>
          let r := scihub_fallback st env it
          (r.1, r.2.1, .direct it.url :: .curl it.url :: r.2.2)
      else
        let r := scihub_fallback st env it
        (r.1, r.2.1, .direct it.url :: r.2.2)
    | .otherError =>
      let r := scihub_fallback st env it
      (r.1, r.2.1, .direct it.url :: r.2.2)

/-- The worker loop of `main` (lines 1228-1251) driving `download_file`
over the pending items, threading the shared state through; the
sequential order models one admissible schedule of the bounded pool. -/
def runPipeline (env : FetchEnv) :
    DState → List WorkItem → DState × List (WorkItem × Outcome × List Event)
  | st, [] => (st, [])
  | st, it :: rest =>
    let r := download_file st env it
    let tail := runPipeline env r.2.1 rest
    (tail.1, (it, r.1, r.2.2) :: tail.2)

/-- One run of `main` after state loading (lines 1199-1251): the loaded
ledger seeds `downloaded_urls`, `scihub_attempted_urls` starts empty,
already-completed lines are filtered out (line 1213), and the rest are
processed. -/
def mainRun (env : FetchEnv) (ledger : List String) (items : List WorkItem) :
    DState × List (WorkItem × Outcome × List Event) :=
  let st0 : DState := { downloaded_urls := ledger, scihub_attempted_urls := [] }
  runPipeline env st0 (items.filter (fun it => !decide (it.url_info ∈ ledger)))

/-- Total number of mirror invocations in a trace. -/
def mirrorCount (evs : List Event) : Nat := evs.countP Event.isMirror

/-- Number of mirror invocations for one specific DOI in a trace. -/
def mirrorCountFor (d : String) (evs : List Event) : Nat :=
  evs.countP (fun e => decide (e = Event.mirror d))

/-- All network requests of a run, in order. -/
def runEvents (r : DState × List (WorkItem × Outcome × List Event)) : List Event :=
  (r.2.map (fun x => x.2.2)).flatten

/-- A decoded JSON value, as `json.load` can produce one. -/
inductive Json where
  | null
  | bool (b : Bool)
  | num (n : Int)
  | str (s : String)
  | arr (elems : List Json)
  | obj (fields : List (String × Json))

/-- Whether a Python value of this JSON shape is hashable (lists and
dicts are not, so they cannot be members of a `set`). -/
def Json.hashable : Json → Bool
  | .arr _ => false
  | .obj _ => false
  | _ => true

/-- Python `set(x)` applied to a decoded JSON value: a list yields the
set of its elements provided they are hashable; a string yields its
characters; a dict yields its keys; a number, boolean or `None` is not
iterable and raises `TypeError` (modelled as `Except.error`, since
`load_state` does not catch it). -/
def pySet : Json → Except String (List Json)
  | .arr xs =>
    if xs.all Json.hashable then .ok xs
    else .error "TypeError: unhashable type"
  | .str s => .ok (s.data.map (fun c => Json.str (String.mk [c])))
  | .obj kvs => .ok (kvs.map (fun kv => Json.str kv.fst))
  | _ => .error "TypeError: object is not iterable"

/-- The ledger file as `load_state` can encounter it: absent
(`os.path.exists` false, line 115), unreadable (`IOError`, caught at
line 120), undecodable (`json.JSONDecodeError`, caught at line 120), or
readable well-formed JSON handed to `set(json.load(f))` at line 118. -/
inductive LedgerFile where
  | absent
  | unreadable
  | invalidJson
  | wellFormed (j : Json)

/-- `load_state()` (lines 112-122).  The result is the value of the
module-level `downloaded_urls` set after the call (initialised to the
empty set at line 43); `Except.error` models an exception the function
does not catch escaping to the caller. -/
def load_state : LedgerFile → Except String (List Json)
  | .absent => .ok []
  | .unreadable => .ok []
  | .invalidJson => .ok []
  | .wellFormed j => pySet j

/-- `save_state()` (lines 124-134) acting on the ledger file's contents
(`none` = no file exists).  The body is guarded by `if downloaded_urls:`,
so an empty set writes nothing at all; otherwise the file is rewritten
wholesale with `list(downloaded_urls)`. -/
def save_state (downloaded_urls : List String) (ledger_file : Option (List String)) :
    Option (List String) :=
  if downloaded_urls.isEmpty then ledger_file else some downloaded_urls

/-- What one process invocation of the script ends with: the interpreter
exit status, and whether any per-item work was started. -/
structure MainOutcome where
  exitCode : Nat
  workStarted : Bool
deriving DecidableEq, Repr

/-- The exit behavior of `main()` (lines 1149-1254) and the
`if __name__ == "__main__": main()` entry (lines 1256-1257).  The
script contains no `sys.exit` call; when the input file is missing,
`main` logs an error and executes a bare `return` (lines 1201-1203)
before any download work, and the interpreter exits with status 0; on
normal completion — whether or not individual items failed — `main`
likewise returns and the interpreter exits with status 0. -/
def main_process (inputFileExists : Bool) (anyItemFailed : Bool) : MainOutcome :=
  if inputFileExists then { exitCode := 0, workStarted := true }
  else { exitCode := 0, workStarted := false }

/-- A string of exactly 100 characters (a page whose extracted text has
exactly 100 characters). -/
def s100 : String := String.mk (List.replicate 100 'a')

/-- A string of exactly 200 characters. -/
def s200 : String := String.mk (List.replicate 200 'a')

/-- A concrete oracle: every primary request raises, curl fails, and the
mirror never delivers a valid document. -/
def env0 : FetchEnv :=
  { primary := fun _ => .requestError
    curl := fun _ => none
    mirror := fun _ => false }

/-- An item whose landing-page URL carries DOI 10.1/x. -/
def itemA : WorkItem :=
  { url_info := "pA|10.1/x|Au|T1|pdf|http://a/x"
    url := "http://a/x"
    doi := some "10.1/x" }

/-- A second, distinct item carrying the same DOI 10.1/x. -/
def itemB : WorkItem :=
  { url_info := "pB|10.1/x|Bu|T2|pdf|http://b/x"
    url := "http://b/x"
    doi := some "10.1/x" }

/-- A state in which DOI 10.1/x is already recorded in the
mirror-attempt ledger. -/
def stW1 : DState := { downloaded_urls := [], scihub_attempted_urls := ["10.1/x"] }

/-- An item with a direct `.pdf` URL carrying DOI 10.1/x. -/
def itW1 : WorkItem :=
  { url_info := "pC|10.1/x|Cu|T3|pdf|http://a/doc.pdf"
    url := "http://a/doc.pdf"
    doi := some "10.1/x" }

/-- A state whose completion ledger already contains the identity "u0". -/
def stW6 : DState := { downloaded_urls := ["u0"], scihub_attempted_urls := [] }

/-- An item whose identity is "u0". -/
def itW6 : WorkItem := { url_info := "u0", url := "http://a/doc.pdf", doi := none }

/-- The trace of one fallback is empty or one mirror invocation of the
item's DOI. -/
theorem scihub_fallback_trace_shape (st : DState) (env : FetchEnv) (it : WorkItem) :
    (scihub_fallback st env it).2.2 = [] ∨
    ∃ d, it.doi = some d ∧ (scihub_fallback st env it).2.2 = [.mirror d] := by
  unfold scihub_fallback
  cases h : it.doi with
  | none => exact Or.inl rfl
  | some d =>
    dsimp only
    split
    · split
      · exact Or.inr ⟨d, rfl, rfl⟩
      · exact Or.inr ⟨d, rfl, rfl⟩
    · exact Or.inl rfl

/-- One fallback performs at most one mirror invocation. -/
theorem scihub_fallback_mirrorCount (st : DState) (env : FetchEnv) (it : WorkItem) :
    mirrorCount (scihub_fallback st env it).2.2 ≤ 1 := by
  rcases scihub_fallback_trace_shape st env it with h | ⟨d, _, h⟩ <;>
    simp [h, mirrorCount, List.countP_cons, Event.isMirror]

/-- A DOI already recorded in the attempt ledger is not re-attempted by
the fallback guard. -/
theorem scihub_fallback_already (st : DState) (env : FetchEnv) (it : WorkItem) (d : String)
    (hd : it.doi = some d) (hmem : d ∈ st.scihub_attempted_urls) :
    scihub_fallback st env it = (.failed, st, []) := by
  unfold scihub_fallback
  rw [hd]
  dsimp only
  rw [if_neg (fun hc => hc.2 hmem)]

/-- In the regular (non-mirror-routed) path the primary request is the
first network event. -/
theorem download_file_regular_first (st : DState) (env : FetchEnv) (it : WorkItem)
    (hnew : it.url_info ∉ st.downloaded_urls) (hroute : directToMirror it = false) :
    ∃ rest, (download_file st env it).2.2 = .direct it.url :: rest := by
  unfold download_file
  rw [if_neg hnew, if_neg (by simp [hroute])]
  split
  · exact ⟨_, rfl⟩
  · exact ⟨_, rfl⟩
  · split
    · split
      · exact ⟨_, rfl⟩
      · exact ⟨_, rfl⟩
      · exact ⟨_, rfl⟩
    · exact ⟨_, rfl⟩
  · exact ⟨_, rfl⟩

/-- Strings of the `Json.str` shape are all hashable. -/
theorem json_str_all_hashable (xs : List String) :
    (xs.map Json.str).all Json.hashable = true := by
  induction xs with
  | nil => rfl
  | cons x xs ih => simp [List.all_cons, Json.hashable, ih]

/-- Claim C2, counterexample: the claim accepts any 50 KB PDF one of
whose first 3 pages yields at least 100 characters of extracted text,
but the code's test at line 217 is `len(text) > 100`, strictly: a 50 KB
single-page PDF whose page yields exactly 100 characters is rejected
with the "no text content" reason. -/
theorem c2_exactly_100_chars_rejected :
    s100.length = 100 ∧ MIN_PDF_SIZE ≤ 51200 ∧
    verify_pdf_content (.file 51200 (.parsed [s100])) =
      (false, "No text content found in first few pages") :=
  ⟨by decide, by decide, by decide⟩

/-- Claim C2 (amended): validation returns invalid with a "too small"
reason below 10 KiB; invalid when the PDF parses to zero pages; invalid
with a "no text content" reason when none of the first 3 pages yields
MORE THAN 100 characters of extracted text; and otherwise valid with
the page count in the reason string. -/
theorem c2_pdf_validation_policy (size : Nat) (pages : List String) :
    (size < MIN_PDF_SIZE →
      verify_pdf_content (.file size (.parsed pages)) =
        (false, "File too small: " ++ toString size ++ " bytes")) ∧
    (MIN_PDF_SIZE ≤ size → pages = [] →
      verify_pdf_content (.file size (.parsed pages)) = (false, "PDF has no pages")) ∧
    (MIN_PDF_SIZE ≤ size → pages ≠ [] → (∀ t ∈ pages.take 3, t.length ≤ 100) →
      verify_pdf_content (.file size (.parsed pages)) =
        (false, "No text content found in first few pages")) ∧
    (MIN_PDF_SIZE ≤ size → (∃ t ∈ pages.take 3, 100 < t.length) →
      verify_pdf_content (.file size (.parsed pages)) =
        (true, "Valid PDF with " ++ toString pages.length ++ " pages")) := by
  refine ⟨?_, ?_, ?_, ?_⟩
  · intro h
    simp [verify_pdf_content, h]
  · intro h hnil
    subst hnil
    simp [verify_pdf_content, Nat.not_lt.mpr h]
  · intro h hne hall
    have h1 : ¬ size < MIN_PDF_SIZE := Nat.not_lt.mpr h
    have h2 : ¬ pages.length = 0 := by
      simpa [List.length_eq_zero] using hne
    have htake : pages.take (min 3 pages.length) = pages.take 3 := by
      rw [← List.take_take, List.take_length]
    have hany : (pages.take 3).any pageHasText = false := by
      rw [List.any_eq_false]
      intro t ht
      simp [pageHasText, Nat.not_lt.mpr (hall t ht)]
    simp [verify_pdf_content, h1, h2, htake, hany]
  · intro h hex
    obtain ⟨t, ht, htl⟩ := hex
    have h1 : ¬ size < MIN_PDF_SIZE := Nat.not_lt.mpr h
    have hmem : t ∈ pages := List.mem_of_mem_take ht
    have h2 : ¬ pages.length = 0 := by
      intro h0
      rw [List.length_eq_zero] at h0
      subst h0
      simp at hmem
    have htne : ¬ (t = "") := by
      rintro rfl
      exact absurd htl (by decide)
    have htake : pages.take (min 3 pages.length) = pages.take 3 := by
      rw [← List.take_take, List.take_length]
    have hany : (pages.take 3).any pageHasText = true :=
      List.any_eq_true.mpr ⟨t, ht, by simp [pageHasText, htl, htne]⟩
    simp [verify_pdf_content, h1, h2, htake, hany]

/-- Claim C2, witness: a 5 KB PDF is rejected as too small; a 50 KB PDF
with 3 blank pages is rejected for lack of text; a 50 KB PDF with one
page of 200 characters is accepted with the page count reported. -/
theorem c2_pdf_validation_policy_holds :
    verify_pdf_content (.file 5120 (.parsed [s200])) =
      (false, "File too small: 5120 bytes") ∧
    verify_pdf_content (.file 51200 (.parsed ["", "", ""])) =
      (false, "No text content found in first few pages") ∧
    verify_pdf_content (.file 51200 (.parsed [s200])) =
      (true, "Valid PDF with 1 pages") :=
  ⟨(c2_pdf_validation_policy 5120 [s200]).1 (by decide),
   (c2_pdf_validation_policy 51200 ["", "", ""]).2.2.1 (by decide) (by decide) (by decide),
   (c2_pdf_validation_policy 51200 [s200]).2.2.2 (by decide) ⟨s200, by decide, by decide⟩⟩

/-- Claim C3, counterexample: an `<html>`-prefixed body declared
`text/plain` is NOT classified as HTML — `detect_content_type` is the
constant function returning "pdf" (line 191), so no byte-sniffing
happens. -/
theorem c3_html_body_not_classified_html :
    bytesStartWith "<html><body>x</body></html>" "<html" = true ∧
    detect_content_type
      { contentType := "text/plain", firstBytes := "<html><body>x</body></html>" } ≠ "html" :=
  ⟨by decide, by decide⟩

/-- Claim C3 (amended): the content classifier ignores both the declared
header and the body bytes and returns PDF for every response; in
particular any `%PDF`-prefixed input classifies as PDF, but so does
everything else — no header trust or magic-byte sniffing exists. -/
theorem c3_classifier_always_pdf (r : HttpResponse) :
    detect_content_type r = "pdf" ∧
    (bytesStartWith r.firstBytes "%PDF" = true → detect_content_type r = "pdf") :=
  ⟨rfl, fun _ => rfl⟩

/-- Claim C3, witness: a `%PDF`-prefixed body classifies as PDF. -/
theorem c3_classifier_always_pdf_holds :
    bytesStartWith "%PDF-1.7" "%PDF" = true ∧
    detect_content_type
      { contentType := "application/octet-stream", firstBytes := "%PDF-1.7" } = "pdf" :=
  ⟨by decide,
   (c3_classifier_always_pdf
     { contentType := "application/octet-stream", firstBytes := "%PDF-1.7" }).2 (by decide)⟩

/-- Claim C4, counterexample: a file declared XML whose content is 2000
ASCII bytes (2000 characters, above the claimed 1000-character
threshold) is rejected — `verify_content` ignores the declared type and
applies the PDF policy, failing the 10 KiB size check. -/
theorem c4_short_xml_rejected_as_pdf :
    verify_content (.file 2000 (.unreadable "not a PDF")) "xml" =
      (false, "File too small: 2000 bytes") := by decide

/-- Claim C4 (amended): validation applies the PDF policy to every file
regardless of the declared type: `verify_content` returns
`verify_pdf_content`'s verdict for any declared type, and two different
declared types always yield the same verdict; the per-type HTML, XML
and TXT policies do not exist in the code. -/
theorem c4_validation_ignores_declared_type (f : PdfFile) (t1 t2 : String) :
    verify_content f t1 = verify_pdf_content f ∧
    verify_content f t1 = verify_content f t2 :=
  ⟨rfl, rfl⟩

/-- Claim C7, counterexample: a missing input file makes `main` log an
error and return (line 1203); since the script never calls `sys.exit`,
the process still exits with status 0, not non-zero, although no work
was started. -/
theorem c7_missing_input_exits_zero :
    (main_process false false).exitCode = 0 ∧
    (main_process false false).workStarted = false :=
  ⟨rfl, rfl⟩

/-- Claim C7 (amended): the process exit code is 0 on normal completion
including runs with partial per-item failures, and is ALSO 0 when the
input file is missing; the missing input file does abort before any
work starts, but without a non-zero exit code. -/
theorem c7_exit_code_always_zero (inputFileExists anyItemFailed : Bool) :
    (main_process inputFileExists anyItemFailed).exitCode = 0 ∧
    (main_process false anyItemFailed).workStarted = false ∧
    (main_process true anyItemFailed).workStarted = true := by
  cases inputFileExists <;> exact ⟨rfl, rfl, rfl⟩

/-- Claim C8, counterexample: a readable ledger file containing the
valid JSON document `42` is neither corrupt JSON nor unreadable, yet
`set(json.load(f))` at line 118 raises `TypeError: 'int' object is not
iterable`, which the `except (json.JSONDecodeError, IOError)` clause at
line 120 does not catch — `load_state` raises and the run aborts. -/
theorem c8_numeric_ledger_raises :
    load_state (.wellFormed (.num 42)) = .error "TypeError: object is not iterable" := rfl

/-- Claim C8 (amended): when the ledger file is absent, unreadable
(IOError) or not decodable as JSON (JSONDecodeError), `load_state` logs
and yields the empty set without raising, and a ledger holding a JSON
array of strings yields exactly those identities; but a readable ledger
holding valid JSON whose top-level value is not iterable (a number,
boolean or null) makes the uncaught `set()` TypeError abort the run. -/
theorem c8_load_state_fail_open (xs : List String) :
    load_state .absent = .ok [] ∧
    load_state .unreadable = .ok [] ∧
    load_state .invalidJson = .ok [] ∧
    load_state (.wellFormed (.arr (xs.map Json.str))) = .ok (xs.map Json.str) := by
  refine ⟨rfl, rfl, rfl, ?_⟩
  simp [load_state, pySet, json_str_all_hashable]

/-- Claim C9: validation never raises — an exception from
`os.path.getsize` is caught by the outer handler (line 232) and
returned as an invalid verdict whose reason embeds the error, and a
PDF-parse exception is caught by the inner handler (line 228) likewise;
for any file and declared type the validator returns a verdict. -/
theorem c9_validator_never_raises (size : Nat) (err declared : String) :
    verify_content (.statError err) declared = (false, "Error verifying: " ++ err) ∧
    (MIN_PDF_SIZE ≤ size →
      verify_content (.file size (.unreadable err)) declared =
        (false, "Error reading PDF: " ++ err)) ∧
    (size < MIN_PDF_SIZE →
      verify_content (.file size (.unreadable err)) declared =
        (false, "File too small: " ++ toString size ++ " bytes")) := by
  refine ⟨rfl, ?_, ?_⟩
  · intro h
    simp [verify_content, verify_pdf_content, Nat.not_lt.mpr h]
  · intro h
    simp [verify_content, verify_pdf_content, h]

/-- Claim C9, witness: a structurally broken 20 KB PDF is reported
invalid with the parser's error text in the reason. -/
theorem c9_validator_never_raises_holds :
    MIN_PDF_SIZE ≤ 20000 ∧
    verify_content (.file 20000 (.unreadable "EOF marker not found")) "pdf" =
      (false, "Error reading PDF: EOF marker not found") :=
  ⟨by decide,
   (c9_validator_never_raises 20000 "EOF marker not found" "pdf").2.1 (by decide)⟩

/-- Claim C10: when the in-memory set of completed identities is empty,
`save_state` is a no-op on the ledger file — the `if downloaded_urls:`
guard at line 126 skips the write entirely, so whatever ledger file
previously existed (or did not) is preserved unchanged. -/
theorem c10_save_state_empty_noop (ledger_file : Option (List String)) :
    save_state [] ledger_file = ledger_file := rfl

/-- Claim C1, counterexample: two distinct work items that share DOI
10.1/x and whose URLs route directly to the mirror each invoke
`download_from_scihub` — the routing path at lines 639-641 records the
original URL, not the DOI, in `scihub_attempted_urls` and never
consults that set, so one run invokes the mirror twice for the same
DOI. -/
theorem c1_shared_doi_invokes_mirror_twice :
    itemA ≠ itemB ∧ itemA.doi = itemB.doi ∧
    mirrorCountFor "10.1/x" (runEvents (mainRun env0 [] [itemA, itemB])) = 2 :=
  ⟨by decide, rfl, by decide⟩

/-- Claim C1 (amended): within the processing of a single work item,
`download_from_scihub` is invoked at most once, and on the
invalid-content and failed/errored-request paths the DOI-keyed ledger
check blocks any invocation for a DOI already recorded; the direct
non-document-URL routing path, however, records the original URL
instead of the DOI and performs no ledger check, so distinct items
sharing one DOI can each trigger one invocation per run. -/
theorem c1_mirror_at_most_once_per_item (st : DState) (env : FetchEnv) (it : WorkItem) :
    mirrorCount (download_file st env it).2.2 ≤ 1 ∧
    (∀ d, it.doi = some d → d ∈ st.scihub_attempted_urls → directToMirror it = false →
      mirrorCountFor d (download_file st env it).2.2 = 0) := by
  constructor
  · have hsf := scihub_fallback_mirrorCount st env it
    unfold download_file
    split
    · simp [mirrorCount]
    · split
      · dsimp only
        split <;> simp [mirrorCount, List.countP_cons, Event.isMirror]
      · split
        · simp [mirrorCount, List.countP_cons, Event.isMirror]
        · simpa [mirrorCount, List.countP_cons, Event.isMirror] using hsf
        · split
          · split
            · simp [mirrorCount, List.countP_cons, Event.isMirror]
            · simpa [mirrorCount, List.countP_cons, Event.isMirror] using hsf
            · simpa [mirrorCount, List.countP_cons, Event.isMirror] using hsf
          · simpa [mirrorCount, List.countP_cons, Event.isMirror] using hsf
        · simpa [mirrorCount, List.countP_cons, Event.isMirror] using hsf
  · intro d hd hmem hroute
    have hsf := scihub_fallback_already st env it d hd hmem
    unfold download_file
    split
    · simp [mirrorCountFor]
    · split
      · rename_i hdm
        rw [hroute] at hdm
        exact absurd hdm (by simp)
      · split
        · simp [mirrorCountFor, List.countP_cons]
        · simp [hsf, mirrorCountFor, List.countP_cons]
        · split
          · split
            · simp [mirrorCountFor, List.countP_cons]
            · simp [hsf, mirrorCountFor, List.countP_cons]
            · simp [hsf, mirrorCountFor, List.countP_cons]
          · simp [hsf, mirrorCountFor, List.countP_cons]
        · simp [hsf, mirrorCountFor, List.countP_cons]

/-- Claim C1, witness: an item whose DOI is already in the
mirror-attempt ledger and whose `.pdf` URL keeps it off the routing
path performs no mirror invocation. -/
theorem c1_mirror_at_most_once_per_item_holds :
    mirrorCountFor "10.1/x" (download_file stW1 env0 itW1).2.2 = 0 :=
  (c1_mirror_at_most_once_per_item stW1 env0 itW1).2 "10.1/x" rfl (by decide) (by decide)

/-- Claim C5: a pending item with a truthy DOI whose URL (lowercased)
does not end in `.pdf` and contains neither "render" nor "printable"
is routed straight to the mirror — its only network event is the one
mirror invocation, the direct fetch being skipped entirely; a pending
item whose lowercased URL ends in `.pdf` has the direct primary fetch
as its first network event. -/
theorem c5_resolver_routing (st : DState) (env : FetchEnv) (it : WorkItem) (d : String)
    (hnew : it.url_info ∉ st.downloaded_urls) :
    (it.doi = some d → d ≠ "" →
      pyEndsWith (pyLower it.url) ".pdf" = false →
      strContains (pyLower it.url) "render" = false →
      strContains (pyLower it.url) "printable" = false →
      (download_file st env it).2.2 = [.mirror d]) ∧
    (pyEndsWith (pyLower it.url) ".pdf" = true →
      ∃ rest, (download_file st env it).2.2 = .direct it.url :: rest) := by
  constructor
  · intro hd hne hpdf hr hp
    have hroute : directToMirror it = true := by
      simp [directToMirror, hasDoi, hd, hne, hpdf, hr, hp]
    have hds : doiStr it = d := by simp [doiStr, hd]
    unfold download_file
    rw [if_neg hnew, if_pos hroute, hds]
    dsimp only
    split <;> rfl
  · intro hpdf
    exact download_file_regular_first st env it hnew (by simp [directToMirror, hpdf])

/-- Claim C5, witness: itemA (DOI, landing-page URL) yields the mirror
as sole candidate; itW1 (`.pdf` URL) attempts the direct fetch first. -/
theorem c5_resolver_routing_holds :
    (download_file { downloaded_urls := [], scihub_attempted_urls := [] } env0 itemA).2.2 =
      [.mirror "10.1/x"] ∧
    ∃ rest,
      (download_file { downloaded_urls := [], scihub_attempted_urls := [] } env0 itW1).2.2 =
        .direct itW1.url :: rest :=
  ⟨(c5_resolver_routing { downloaded_urls := [], scihub_attempted_urls := [] }
      env0 itemA "10.1/x" (by decide)).1 rfl (by decide) (by decide) (by decide) (by decide),
   (c5_resolver_routing { downloaded_urls := [], scihub_attempted_urls := [] }
      env0 itW1 "10.1/x" (by decide)).2 (by decide)⟩

/-- Claim C6: an identity already present in the persisted ledger is
skipped immediately with zero network events and an unchanged state
(lines 556-559); consequently a second run over the same input whose
items were all marked done performs no network requests at all —
`main` filters them out (line 1213) and the run trace is empty. -/
theorem c6_ledger_skip_idempotence (st : DState) (env : FetchEnv) (it : WorkItem)
    (ledger : List String) (items : List WorkItem)
    (h1 : it.url_info ∈ st.downloaded_urls)
    (h2 : ∀ x ∈ items, x.url_info ∈ ledger) :
    download_file st env it = (.skipped, st, []) ∧
    mainRun env ledger items =
      ({ downloaded_urls := ledger, scihub_attempted_urls := [] }, []) := by
  constructor
  · unfold download_file
    rw [if_pos h1]
  · unfold mainRun
    have hf : items.filter (fun x => !decide (x.url_info ∈ ledger)) = [] := by
      rw [List.filter_eq_nil_iff]
      intro a ha
      simp [h2 a ha]
    rw [hf]
    rfl

/-- Claim C6, witness: the identity "u0" is in the ledger, the item is
skipped with no state change, and a run over it alone performs zero
network requests. -/
theorem c6_ledger_skip_idempotence_holds :
    download_file stW6 env0 itW6 = (.skipped, stW6, []) ∧
    mainRun env0 ["u0"] [itW6] =
      ({ downloaded_urls := ["u0"], scihub_attempted_urls := [] }, []) :=
  c6_ledger_skip_idempotence stW6 env0 itW6 ["u0"] [itW6] (by decide) (by decide)

end DownloadPdfs
